import Mathlib

/-!
Verification of `url_check.py` (moztw/planet.moztw.org): a one-shot batch
URL checker.  The script filters a configuration mapping down to entries
whose key starts with `http`, issues one GET request per URL (the entry key
and its `truelink` field), classifies each response as Normal / Moved /
Unavailable, formats non-normal results as markdown-table rows, sorts the
rows and prepends two header rows.

The HTTP layer is modelled as a function (`World`) from a URL to the
outcome the client library reports: either a response (status code,
redirect history, final resolved URL) or a client response error.
-/

namespace UrlCheck

/-- Source type `SiteStatus`: is the site operating normally,
a 301 redirect, or no longer accessible? -/
inductive SiteStatus where
  | Normal
  | Moved
  | Unavailable
deriving DecidableEq, Repr

/-- Source type `SubscribedUrl`: the structure of one subscribed URL. -/
structure SubscribedUrl where
  name : String
  description : String
  blogname : String
  icon : String
  truelink : String
deriving DecidableEq, Repr

/-- What a single GET request comes back with, as exposed by the client
library to `try_request`: the status code, the redirect history (one entry
per prior hop) and the final resolved URL (`resp.url`). -/
structure Resp where
  status : Nat
  history : List String
  url : String
deriving DecidableEq, Repr

/-- Outcome of issuing a GET request: a response, or the client response
error (`aiohttp.ClientResponseError`) that `try_request` catches. -/
inductive ReqOutcome where
  | resp (r : Resp)
  | clientResponseError
deriving DecidableEq, Repr

/-- The network, fixed for one run: what each URL answers with. -/
abbrev World := String → ReqOutcome

/-- Source function `try_request`: try to request `url` and return the
site's status; when the status is `Moved`, the second component holds the
post-redirect URL.  Statuses 200–299 count as OK; an OK response with a
recorded redirect hop is `Moved` (returning `resp.url`), without one it is
`Normal`; every path without an early return — a non-2xx status or a caught
client response error — falls through to `(Unavailable, none)`. -/
def try_request (w : World) (url : String) : SiteStatus × Option String :=
  match w url with
  | ReqOutcome.clientResponseError => (SiteStatus.Unavailable, none)
  | ReqOutcome.resp r =>
      if 200 ≤ r.status ∧ r.status < 300 then
        match r.history with
        | [] => (SiteStatus.Normal, none)
        | _ :: _ => (SiteStatus.Moved, some r.url)
      else
        (SiteStatus.Unavailable, none)

/-- Python f-string interpolation of an optional string: `None` prints as the
literal text `None`. -/
def pyOptStr : Option String → String
  | none => "None"
  | some s => s

/-- Source function `interpret_result`: turn the original URL and the pair
returned by `try_request` into a human-readable row, or nothing for a
normal site. -/
def interpret_result (url : String) (response : SiteStatus × Option String) :
    Option String :=
  match response with
  | (SiteStatus.Normal, _) => none
  | (SiteStatus.Moved, redirect_url) =>
      some ("| 301 轉址 | " ++ url ++ " | " ++ pyOptStr redirect_url ++ " |")
  | (SiteStatus.Unavailable, _) =>
      some ("| 404 失效 | " ++ url ++ " | |")

/-- Source function `extract_urls_from_config`: keep only the entries whose
key starts with `http` (we only intend to process URLs).  The configuration
mapping is modelled as an association list. -/
def extract_urls_from_config (config : List (String × SubscribedUrl)) :
    List (String × SubscribedUrl) :=
  config.filter (fun kv => kv.1.startsWith "http")

/-- Inner function `request_action` of `main`: request a URL and format the result. -/
def request_action (w : World) (url : String) : Option String :=
  interpret_result url (try_request w url)

/-- The rows `main` gathers before sorting: for every extracted entry, the
formatted result of its key URL and of its `truelink`, flattened, with the
`None` (normal) results filtered out. -/
def gathered_rows (w : World) (entries : List (String × SubscribedUrl)) :
    List String :=
  (entries.map
    (fun kv => [request_action w kv.1, request_action w kv.2.truelink])).flatten.filterMap id

/-- The title row `main` inserts at position 0. -/
def header_row : String := "| 狀態 | 網址 | 轉址網址 |"

/-- The separator row `main` inserts at position 1. -/
def separator_row : String := "| --- | --- | ------ |"

/-- The text `main` prints: gathered rows sorted ascending (Python
`list.sort`), the two header rows prepended, joined with newlines. -/
def main_output (w : World) (entries : List (String × SubscribedUrl)) : String :=
  String.intercalate "\n"
    (header_row :: separator_row ::
      List.insertionSort (· ≤ ·) (gathered_rows w entries))

/-- C3: for every URL whose GET request returns a 2xx status code with no
redirect history, `try_request` returns `(Normal, absent)` and
`interpret_result` returns absent, so no report row is produced for it. -/
theorem C3_normal_no_row (w : World) (url : String) (r : Resp)
    (hw : w url = ReqOutcome.resp r) (h2 : 200 ≤ r.status) (h3 : r.status < 300)
    (hh : r.history = []) :
    try_request w url = (SiteStatus.Normal, none) ∧
      interpret_result url (try_request w url) = none := by
  have ht : try_request w url = (SiteStatus.Normal, none) := by
    simp [try_request, hw, hh, h2, h3]
  exact ⟨ht, by rw [ht]; rfl⟩

theorem C3_normal_no_row_witness :
    try_request (fun _ => ReqOutcome.resp ⟨200, [], "http://a.example/"⟩)
        "http://a.example/" = (SiteStatus.Normal, none) ∧
      interpret_result "http://a.example/"
        (try_request (fun _ => ReqOutcome.resp ⟨200, [], "http://a.example/"⟩)
          "http://a.example/") = none :=
  C3_normal_no_row _ "http://a.example/" ⟨200, [], "http://a.example/"⟩
    rfl (by decide) (by decide) rfl

/-- C1: for every URL, if the GET request returns a non-2xx status code or
raises a client response error, `try_request` returns `(Unavailable, absent)`
without raising (it is a total function of the world), and
`interpret_result` produces the row `| 404 失效 | <url> | |`. -/
theorem C1_failure_unavailable (w : World) (url : String)
    (h : w url = ReqOutcome.clientResponseError ∨
      ∃ r, w url = ReqOutcome.resp r ∧ ¬(200 ≤ r.status ∧ r.status < 300)) :
    try_request w url = (SiteStatus.Unavailable, none) ∧
      interpret_result url (try_request w url) =
        some ("| 404 失效 | " ++ url ++ " | |") := by
  have ht : try_request w url = (SiteStatus.Unavailable, none) := by
    rcases h with h | ⟨r, hw, hs⟩
    · simp [try_request, h]
    · simp [try_request, hw, hs]
  exact ⟨ht, by rw [ht]; rfl⟩

theorem C1_failure_unavailable_witness :
    try_request (fun _ => ReqOutcome.clientResponseError) "http://a.example/" =
        (SiteStatus.Unavailable, none) ∧
      interpret_result "http://a.example/"
        (try_request (fun _ => ReqOutcome.clientResponseError) "http://a.example/") =
        some ("| 404 失效 | " ++ "http://a.example/" ++ " | |") :=
  C1_failure_unavailable (fun _ => ReqOutcome.clientResponseError)
    "http://a.example/" (Or.inl rfl)

/-- C2: for every URL whose GET request returns a 2xx status code with at
least one recorded redirect hop, `try_request` returns `(Moved, final URL)`
— only the presence of a hop matters, the chain is collapsed to the final
destination `resp.url` — and `interpret_result` produces the row
`| 301 轉址 | <original_url> | <final_url> |`. -/
theorem C2_moved_final_url (w : World) (url : String) (r : Resp)
    (hw : w url = ReqOutcome.resp r) (h2 : 200 ≤ r.status) (h3 : r.status < 300)
    (hh : r.history ≠ []) :
    try_request w url = (SiteStatus.Moved, some r.url) ∧
      interpret_result url (try_request w url) =
        some ("| 301 轉址 | " ++ url ++ " | " ++ r.url ++ " |") := by
  have ht : try_request w url = (SiteStatus.Moved, some r.url) := by
    cases hist : r.history with
    | nil => exact absurd hist hh
    | cons a t => simp [try_request, hw, h2, h3, hist]
  refine ⟨ht, ?_⟩
  rw [ht]
  rfl

theorem C2_moved_final_url_witness :
    try_request
        (fun _ => ReqOutcome.resp ⟨200, ["http://a.example/"], "https://a.example/new"⟩)
        "http://a.example/" = (SiteStatus.Moved, some "https://a.example/new") ∧
      interpret_result "http://a.example/"
        (try_request
          (fun _ => ReqOutcome.resp ⟨200, ["http://a.example/"], "https://a.example/new"⟩)
          "http://a.example/") =
        some ("| 301 轉址 | " ++ "http://a.example/" ++ " | " ++
          "https://a.example/new" ++ " |") :=
  C2_moved_final_url _ "http://a.example/"
    ⟨200, ["http://a.example/"], "https://a.example/new"⟩
    rfl (by decide) (by decide) (by decide)

/-- C4: `extract_urls_from_config` returns exactly the entries whose key
starts with `http`; an entry survives with its whole record — all five
fields — unchanged. -/
theorem C4_extract_exactly_http (config : List (String × SubscribedUrl))
    (kv : String × SubscribedUrl) :
    kv ∈ extract_urls_from_config config ↔
      kv ∈ config ∧ kv.1.startsWith "http" = true := by
  simp [extract_urls_from_config, List.mem_filter]

/-- C7: the pair returned by `try_request` has its second component (the
redirect target) present if and only if its first component is `Moved`. -/
theorem C7_redirect_iff_moved (w : World) (url : String) :
    (try_request w url).2.isSome = true ↔ (try_request w url).1 = SiteStatus.Moved := by
  unfold try_request
  cases w url with
  | clientResponseError => simp
  | resp r =>
      by_cases h : 200 ≤ r.status ∧ r.status < 300
      · cases hh : r.history with
        | nil => simp [h, hh]
        | cons a t => simp [h, hh]
      · simp [h]

/-- C8: `extract_urls_from_config` is idempotent — every kept key already
satisfies the `http` prefix test, so a second pass changes nothing. -/
theorem C8_extract_idempotent (config : List (String × SubscribedUrl)) :
    extract_urls_from_config (extract_urls_from_config config) =
      extract_urls_from_config config := by
  simp [extract_urls_from_config, List.filter_filter]

/-- C9: `interpret_result` does not enforce the redirect-target coupling:
on the (never produced) input `(Moved, absent)` it returns a row whose
redirect-target column holds the literal text `None`. -/
theorem C9_moved_none_prints_None (url : String) :
    interpret_result url (SiteStatus.Moved, none) =
      some ("| 301 轉址 | " ++ url ++ " | None |") := by
  simp [interpret_result, pyOptStr, String.append_assoc]

/-- C5: the final output is the two fixed header rows followed by the
surviving non-Normal formatted rows in non-decreasing lexicographic order,
joined by newlines. -/
theorem C5_output_shape (w : World) (entries : List (String × SubscribedUrl)) :
    ∃ rows : List String,
      main_output w entries =
          String.intercalate "\n" (header_row :: separator_row :: rows) ∧
        rows.Perm (gathered_rows w entries) ∧
        rows.Sorted (· ≤ ·) :=
  ⟨List.insertionSort (· ≤ ·) (gathered_rows w entries), rfl,
    List.perm_insertionSort _ _, List.sorted_insertionSort _ _⟩

/-- C6: with the network fixed, the final output depends only on the
multiset of surviving formatted rows via the post-hoc sort, not on request
completion order or original entry order; in particular two runs over the
same extracted entries produce identical output. -/
theorem C6_output_order_independent (w : World)
    (entries₁ entries₂ : List (String × SubscribedUrl))
    (h : (gathered_rows w entries₁).Perm (gathered_rows w entries₂)) :
    main_output w entries₁ = main_output w entries₂ := by
  have hs : List.insertionSort (· ≤ ·) (gathered_rows w entries₁) =
      List.insertionSort (· ≤ ·) (gathered_rows w entries₂) :=
    List.eq_of_perm_of_sorted
      ((List.perm_insertionSort _ _).trans
        (h.trans (List.perm_insertionSort _ _).symm))
      (List.sorted_insertionSort _ _) (List.sorted_insertionSort _ _)
  rw [main_output, main_output, hs]

theorem C6_output_order_independent_witness :
    (gathered_rows (fun _ => ReqOutcome.clientResponseError)
        [("http://a.example/", ⟨"n", "d", "b", "i", "http://a.example/"⟩),
         ("http://b.example/", ⟨"n", "d", "b", "i", "http://b.example/"⟩)]).Perm
      (gathered_rows (fun _ => ReqOutcome.clientResponseError)
        [("http://b.example/", ⟨"n", "d", "b", "i", "http://b.example/"⟩),
         ("http://a.example/", ⟨"n", "d", "b", "i", "http://a.example/"⟩)]) ∧
    main_output (fun _ => ReqOutcome.clientResponseError)
        [("http://a.example/", ⟨"n", "d", "b", "i", "http://a.example/"⟩),
         ("http://b.example/", ⟨"n", "d", "b", "i", "http://b.example/"⟩)] =
      main_output (fun _ => ReqOutcome.clientResponseError)
        [("http://b.example/", ⟨"n", "d", "b", "i", "http://b.example/"⟩),
         ("http://a.example/", ⟨"n", "d", "b", "i", "http://a.example/"⟩)] :=
  ⟨by decide,
    C6_output_order_independent (fun _ => ReqOutcome.clientResponseError)
      [("http://a.example/", ⟨"n", "d", "b", "i", "http://a.example/"⟩),
       ("http://b.example/", ⟨"n", "d", "b", "i", "http://b.example/"⟩)]
      [("http://b.example/", ⟨"n", "d", "b", "i", "http://b.example/"⟩),
       ("http://a.example/", ⟨"n", "d", "b", "i", "http://a.example/"⟩)]
      (by decide)⟩

/-- C10: no deduplication — for an entry whose key equals its `truelink`,
both URLs are checked and formatted, so when that URL classifies as
non-Normal the gathered rows hold the same row twice and the sorted output
body counts it twice. -/
theorem C10_no_dedup (w : World) (u : String) (e : SubscribedUrl)
    (htl : e.truelink = u) (row : String)
    (hrow : request_action w u = some row) :
    gathered_rows w [(u, e)] = [row, row] ∧
      List.count row
        (List.insertionSort (· ≤ ·) (gathered_rows w [(u, e)])) = 2 := by
  have hg : gathered_rows w [(u, e)] = [row, row] := by
    simp [gathered_rows, htl, hrow]
  refine ⟨hg, ?_⟩
  rw [(List.perm_insertionSort _ _).count_eq, hg]
  simp

theorem C10_no_dedup_witness :
    gathered_rows (fun _ => ReqOutcome.clientResponseError)
        [("http://a.example/", ⟨"n", "d", "b", "i", "http://a.example/"⟩)] =
      ["| 404 失效 | http://a.example/ | |", "| 404 失效 | http://a.example/ | |"] ∧
    List.count "| 404 失效 | http://a.example/ | |"
      (List.insertionSort (· ≤ ·)
        (gathered_rows (fun _ => ReqOutcome.clientResponseError)
          [("http://a.example/", ⟨"n", "d", "b", "i", "http://a.example/"⟩)])) = 2 :=
  C10_no_dedup (fun _ => ReqOutcome.clientResponseError) "http://a.example/"
    ⟨"n", "d", "b", "i", "http://a.example/"⟩ rfl
    "| 404 失效 | http://a.example/ | |" (by decide)

end UrlCheck
